import Mathlib

/-!
Shallow embedding of `src/timeseriesloader/timeseries_formatter.py`
(`TimeSeriesFormatterPrimitive`), the single source file of
distil-timeseries-loader.

The primitive reads per-row time-series CSV files referenced from a column of
a main dataset resource and joins them into one long-form table.  The d3m
metadata facade, the pandas DataFrame and the file system are external
collaborators; they are modelled as explicit data (association lists) from the
spec's description of them, while every function of the source file is
translated statement by statement.
-/

namespace TSF

/-- A Python cell value, as far as this primitive distinguishes them. -/
inductive Value where
  | str (s : String)
  | int (n : Int)
deriving DecidableEq, Repr

/-- A table row as pandas exposes it to this code: an ordered list of
(column name, value) fields.  `pd.concat` of two rows is list append. -/
abbrev Row : Type := List (String × Value)

/-- Structural type of a column (`column_metadata['structural_type']`);
the source only ever compares it with the Python class `str`. -/
inductive StructType where
  | str
  | nonStr (name : String)
deriving DecidableEq, Repr

/-- A column-level foreign key: (target resource id, target column index). -/
structure ForeignKey where
  resource_id : String
  column_index : Nat
deriving DecidableEq, Repr

/-- Modelled from the spec: the Metadata Query Facade's column-descriptor
record — structural type, semantic tags, media tags, optional foreign key,
base-location list (empty = none declared).  The d3m metadata store itself is
not part of this repository. -/
structure ColumnMetadata where
  structural_type : StructType
  semantic_types : List String
  media_types : List String
  foreign_key : Option ForeignKey
  location_base_uris : List String
deriving DecidableEq, Repr

/-- Association-list lookup by string key (dict access). -/
def lookupStr {α : Type} (k : String) : List (String × α) → Option α
  | [] => none
  | (k', v) :: rest => if k' = k then some v else lookupStr k rest

/-- Modelled from the spec: the metadata store, a mapping from resource id to
the per-column descriptor records of that resource (column index = list
position). -/
structure DataMetadata where
  resources : List (String × List ColumnMetadata)
deriving DecidableEq, Repr

/-- Modelled from the spec: `inputs_metadata.query((res_id, ALL_ELEMENTS, i))`
returns column `i`'s descriptor of resource `res_id`, or nothing (an empty
query result) when the resource or column does not exist. -/
def DataMetadata.query (md : DataMetadata) (res : String) (i : Nat) :
    Option ColumnMetadata :=
  (lookupStr res md.resources).bind fun cols => cols.get? i

/-- Modelled from the spec: `list_columns_with_semantic_types` lists, in
column-index order, all columns at the resource whose semantic-type tags
intersect the given list. -/
def list_columns_with_semantic_types (md : DataMetadata) (types : List String)
    (res : String) : List Nat :=
  match lookupStr res md.resources with
  | none => []
  | some cols =>
    (List.range cols.length).filter fun i =>
      match cols.get? i with
      | some c => c.semantic_types.any fun t => types.contains t
      | none => false

/-- `TimeSeriesFormatterPrimitive._semantic_types` (source lines 56–59). -/
def semantic_types_const : List String :=
  ["https://metadata.datadrivendiscovery.org/types/FileName",
   "https://metadata.datadrivendiscovery.org/types/Timeseries",
   "http://schema.org/Text",
   "https://metadata.datadrivendiscovery.org/types/Attribute"]

/-- `TimeSeriesFormatterPrimitive._media_types` (source line 60). -/
def media_types_const : List String := ["text/csv"]

/-- `_is_csv_file_reference` (source lines 114–128): the referenced column is
textual, its semantic tags intersect the required set, and the required media
types are a subset of its media tags. -/
def is_csv_file_reference (md : DataMetadata) (res : String) (i : Nat) : Bool :=
  match md.query res i with
  | none => false
  | some c =>
    if c.structural_type ≠ StructType.str then false
    else
      (c.semantic_types.any fun t => semantic_types_const.contains t) &&
      (media_types_const.all fun t => c.media_types.contains t)

/-- `_is_csv_file_column` (source lines 97–112): the column is textual, has a
foreign key, and the key's target passes `is_csv_file_reference`. -/
def is_csv_file_column (md : DataMetadata) (res : String) (i : Nat) : Bool :=
  match md.query res i with
  | none => false
  | some c =>
    if c.structural_type ≠ StructType.str then false
    else
      match c.foreign_key with
      | none => false
      | some fk => is_csv_file_reference md fk.resource_id fk.column_index

/-- `_find_csv_file_column` (source lines 89–95): first listed candidate
column passing `is_csv_file_column`, else none. -/
def find_csv_file_column (md : DataMetadata) (res : String) : Option Nat :=
  (list_columns_with_semantic_types md semantic_types_const res).find? fun i =>
    is_csv_file_column md res i

/-- The Python exceptions produce can raise or propagate. -/
inductive PyError where
  | invalidArgumentValue (msg : String)
  | typeError (msg : String)
  | keyError (msg : String)
  | indexError (msg : String)
  | ioError (msg : String)
deriving DecidableEq, Repr

/-- `_get_base_path` (source lines 173–183): follow the column's foreign key
and take the first entry of the referenced column's `location_base_uris`.
A missing key or empty base-location list raises (KeyError / TypeError /
IndexError in Python). -/
def get_base_path (md : DataMetadata) (res : String) (i : Nat) :
    Except PyError String :=
  match md.query res i with
  | none => Except.error (PyError.keyError "foreign_key")
  | some c =>
    match c.foreign_key with
    | none => Except.error (PyError.typeError "NoneType is not subscriptable")
    | some fk =>
      match md.query fk.resource_id fk.column_index with
      | none => Except.error (PyError.keyError "location_base_uris")
      | some rc =>
        match rc.location_base_uris with
        | [] => Except.error (PyError.indexError "list index out of range")
        | u :: _ => Except.ok u

/-- `os.path.join(a, b)` for one separator step (posixpath semantics used by
source line 154). -/
def pathJoin (a b : String) : String :=
  if b.data.head? = some '/' then b
  else if a = "" ∨ a.data.getLast? = some '/' then a ++ b
  else a ++ "/" ++ b

/-- The file system seen by `pd.read_csv`: paths mapped to the parsed rows of
the CSV stored there.  A path that is absent stands for a file that is missing
or unparsable. -/
abbrev Fs : Type := List (String × List Row)

/-- `pd.read_csv(csv_path)` (source line 155): parsed rows, or the propagated
load error. -/
def read_csv (fs : Fs) (path : String) : Except PyError (List Row) :=
  match lookupStr path fs with
  | none => Except.error (PyError.ioError path)
  | some rows => Except.ok rows

/-- `tRow[file_index]` followed by its use in `os.path.join` (source line
154): positional field access on the row; joining a non-string raises
TypeError, an out-of-range position raises IndexError. -/
def rowFileValue (r : Row) (i : Nat) : Except PyError String :=
  match List.get? (α := String × Value) r i with
  | none => Except.error (PyError.indexError "index out of bounds")
  | some (_, Value.str s) => Except.ok s
  | some (_, Value.int _) => Except.error (PyError.typeError "join argument must be str")

/-- One loop step's file load (source lines 154–155): the CSV referenced by
row `r`, read from the base path joined with the row's file-reference field. -/
def referencedCsv (fs : Fs) (base : String) (fi : Nat) (r : Row) :
    Except PyError (List Row) :=
  match rowFileValue r fi with
  | Except.error e => Except.error e
  | Except.ok fname => read_csv fs (pathJoin base fname)

/-- Source lines 158–161: the block of long-form rows one main-resource row
`r` (position `i`) expands to — for each CSV row `v`, the concatenation of
`r`, the appended `series_id = i` field, and `v`. -/
def expandRow (i : Nat) (r : Row) (csv : List Row) : List Row :=
  csv.map fun v => r ++ [("series_id", Value.int (Int.ofNat i))] ++ v

/-- The loop of source lines 152–161 over the main resource's rows (position
counter `i` starts at 0 at the call site): accumulate each row's expanded
block in order; any load failure aborts the whole loop. -/
def buildRows (fs : Fs) (base : String) (fi : Nat) :
    Nat → List Row → Except PyError (List Row)
  | _, [] => Except.ok []
  | i, r :: rs =>
    match referencedCsv fs base fi r with
    | Except.error e => Except.error e
    | Except.ok csv =>
      match buildRows fs base fi (i + 1) rs with
      | Except.error e => Except.error e
      | Except.ok rest => Except.ok (expandRow i r csv ++ rest)

/-- Closed form of the accumulation loop: the blocks of expanded rows, one
block per (main row, its CSV) pair, concatenated in main-resource row order
with the position counter threaded through.  `buildRows` is proved to refine
this below. -/
def expandAll : Nat → List Row → List (List Row) → List Row
  | _, [], _ => []
  | _, _ :: _, [] => []
  | i, r :: rs, c :: cs => expandRow i r c ++ expandAll (i + 1) rs cs

/-- The two hyperparameters (source lines 32–43). -/
structure Hyperparams where
  file_col_index : Option Nat
  main_resource_index : Option String
deriving DecidableEq, Repr

/-- The input Dataset: named resources (tables) plus the metadata store. -/
structure Dataset where
  resources : List (String × List Row)
  metadata : DataMetadata
deriving DecidableEq, Repr

/-- The output Dataset of produce: its named resources.  (Its metadata is
regenerated from the table by the external container library,
`generate_metadata=True`, and carries no content of this primitive's own.) -/
structure OutDataset where
  resources : List (String × List Row)
deriving DecidableEq, Repr

/-- Source lines 139–146: an explicitly configured `file_col_index` must pass
`is_csv_file_column`, else InvalidArgumentValueError.  When it is unset the
source calls `self._find_csv_file_column(inputs.metadata)` — omitting the
required `res_id` parameter of `_find_csv_file_column(cls, inputs_metadata,
res_id)` — so Python raises TypeError before any discovery runs. -/
def resolveFileIndex (fci : Option Nat) (md : DataMetadata) (main : String) :
    Except PyError Nat :=
  match fci with
  | some fi =>
    if is_csv_file_column md main fi then Except.ok fi
    else
      Except.error (PyError.invalidArgumentValue
        ("column idx=" ++ toString fi ++ " from does not contain csv file names"))
  | none =>
    Except.error (PyError.typeError
      ("find_csv_file_column missing 1 required positional argument: res_id"))

/-- `produce` (source lines 130–171): resolve the main resource and file
column, resolve the base path, expand every main-resource row by its
referenced CSV, and wrap the accumulated table as the sole resource (key "0")
of a fresh Dataset. -/
def produce (hp : Hyperparams) (fs : Fs) (inputs : Dataset) :
    Except PyError OutDataset :=
  match hp.main_resource_index with
  | none => Except.error (PyError.invalidArgumentValue "no main resource specified")
  | some main =>
    match resolveFileIndex hp.file_col_index inputs.metadata main with
    | Except.error e => Except.error e
    | Except.ok fi =>
      match get_base_path inputs.metadata main fi with
      | Except.error e => Except.error e
      | Except.ok base =>
        match lookupStr main inputs.resources with
        | none => Except.error (PyError.keyError main)
        | some rows =>
          match buildRows fs base fi 0 rows with
          | Except.error e => Except.error e
          | Except.ok table => Except.ok ⟨[("0", table)]⟩

/-! ### Concrete example data

A small dataset in the shape the primitive expects (two main-resource rows,
their two CSV files) used by the witnesses and counterexamples below.  Column
0 of the main resource carries a required semantic type but no foreign key;
column 1 is the qualifying file-reference column. -/

/-- Descriptor of the referenced timeseries column (resource "0", column 0):
textual, Timeseries-tagged, csv media, base location declared. -/
def exRefCol : ColumnMetadata :=
  { structural_type := StructType.str
    semantic_types := ["https://metadata.datadrivendiscovery.org/types/Timeseries"]
    media_types := ["text/csv"]
    foreign_key := none
    location_base_uris := ["/data/series/"] }

/-- Descriptor of main-resource column 0: a plain Attribute-tagged text
column with no foreign key (a discovery candidate that fails the
classifier). -/
def exPlainCol : ColumnMetadata :=
  { structural_type := StructType.str
    semantic_types := ["https://metadata.datadrivendiscovery.org/types/Attribute"]
    media_types := []
    foreign_key := none
    location_base_uris := [] }

/-- Descriptor of main-resource column 1: the file-name column, foreign key
into resource "0" column 0. -/
def exFileCol : ColumnMetadata :=
  { structural_type := StructType.str
    semantic_types := ["https://metadata.datadrivendiscovery.org/types/FileName"]
    media_types := []
    foreign_key := some ⟨"0", 0⟩
    location_base_uris := [] }

/-- Metadata of the example dataset. -/
def exMeta : DataMetadata :=
  ⟨[("0", [exRefCol]), ("1", [exPlainCol, exFileCol])]⟩

/-- The two main-resource rows: an attribute field and a file name each. -/
def exMainRows : List Row :=
  [[("alpha", Value.str "a"), ("file", Value.str "a.csv")],
   [("alpha", Value.str "b"), ("file", Value.str "b.csv")]]

/-- The example input dataset. -/
def exDataset : Dataset :=
  { resources := [("0", []), ("1", exMainRows)], metadata := exMeta }

/-- The example file system: a.csv has two rows, b.csv one. -/
def exFs : Fs :=
  [("/data/series/a.csv",
    [[("time", Value.int 0), ("value", Value.int 10)],
     [("time", Value.int 1), ("value", Value.int 11)]]),
   ("/data/series/b.csv",
    [[("time", Value.int 0), ("value", Value.int 20)]])]

/-- Hyperparameters with the file column configured explicitly. -/
def exHp : Hyperparams := ⟨some 1, some "1"⟩

/-- Hyperparameters with `file_col_index` unset (the discovery path). -/
def exHpNone : Hyperparams := ⟨none, some "1"⟩

/-- The long-form table produce builds from the example dataset. -/
def exTable : List Row :=
  [[("alpha", Value.str "a"), ("file", Value.str "a.csv"),
    ("series_id", Value.int 0), ("time", Value.int 0), ("value", Value.int 10)],
   [("alpha", Value.str "a"), ("file", Value.str "a.csv"),
    ("series_id", Value.int 0), ("time", Value.int 1), ("value", Value.int 11)],
   [("alpha", Value.str "b"), ("file", Value.str "b.csv"),
    ("series_id", Value.int 1), ("time", Value.int 0), ("value", Value.int 20)]]

/-- The example file system with b.csv missing (a failing load for row 1). -/
def exFsPartial : Fs :=
  [("/data/series/a.csv",
    [[("time", Value.int 0), ("value", Value.int 10)],
     [("time", Value.int 1), ("value", Value.int 11)]])]

/-- The example dataset with a main resource of zero rows. -/
def exDatasetEmpty : Dataset :=
  { resources := [("0", []), ("1", [])], metadata := exMeta }

/-- Metadata in which no column qualifies (the only column of the main
resource is a plain attribute column without a foreign key). -/
def exMetaNoQual : DataMetadata := ⟨[("1", [exPlainCol])]⟩

/-- A dataset whose main resource has no qualifying file-reference column. -/
def exDatasetNoQual : Dataset :=
  { resources := [("1", [[("alpha", Value.str "a")]])], metadata := exMetaNoQual }

/-- The output dataset produce builds from the example input. -/
def exOut : OutDataset := ⟨[("0", exTable)]⟩

/-! ### Helper lemmas -/

/-- Every block the loop emits: a successful `buildRows` run produces exactly
the concatenated per-row blocks of `expandAll`, with one successfully loaded
CSV per main-resource row. -/
theorem buildRows_ok_spec (fs : Fs) (base : String) (fi : Nat) :
    ∀ (rows : List Row) (i : Nat) (out : List Row),
      buildRows fs base fi i rows = Except.ok out →
      ∃ csvs : List (List Row),
        List.Forall₂ (fun r c => referencedCsv fs base fi r = Except.ok c) rows csvs ∧
        out = expandAll i rows csvs := by
  intro rows
  induction rows with
  | nil =>
    intro i out h
    rw [buildRows] at h
    injection h with h
    exact ⟨[], List.Forall₂.nil, h.symm⟩
  | cons r rs ih =>
    intro i out h
    rw [buildRows] at h
    split at h
    · exact Except.noConfusion h
    · rename_i csv hcsv
      split at h
      · exact Except.noConfusion h
      · rename_i rest hrest
        injection h with h
        obtain ⟨csvs, hf, hexp⟩ := ih (i + 1) rest hrest
        refine ⟨csv :: csvs, List.Forall₂.cons hcsv hf, ?_⟩
        rw [← h, hexp, expandAll]

/-- A successful `produce` run decomposed into its stages: resolved main
resource, resolved file column, resolved base path, the main rows, one loaded
CSV per row, and the output as the single "0" resource holding the expanded
table. -/
theorem produce_ok_spec (hp : Hyperparams) (fs : Fs) (inputs : Dataset)
    (out : OutDataset) (h : produce hp fs inputs = Except.ok out) :
    ∃ main fi base rows csvs,
      hp.main_resource_index = some main ∧
      resolveFileIndex hp.file_col_index inputs.metadata main = Except.ok fi ∧
      get_base_path inputs.metadata main fi = Except.ok base ∧
      lookupStr main inputs.resources = some rows ∧
      List.Forall₂ (fun r c => referencedCsv fs base fi r = Except.ok c) rows csvs ∧
      out = ⟨[("0", expandAll 0 rows csvs)]⟩ := by
  rw [produce] at h
  split at h
  · exact Except.noConfusion h
  · rename_i main hmain
    split at h
    · exact Except.noConfusion h
    · rename_i fi hfi
      split at h
      · exact Except.noConfusion h
      · rename_i base hbase
        split at h
        · exact Except.noConfusion h
        · rename_i rows hrows
          split at h
          · exact Except.noConfusion h
          · rename_i table htable
            injection h with h
            obtain ⟨csvs, hf, hexp⟩ := buildRows_ok_spec fs base fi rows 0 table htable
            exact ⟨main, fi, base, rows, csvs, hmain, hfi, hbase, hrows, hf,
              by rw [← h, hexp]⟩

/-- Pointwise access into a `Forall₂` relation. -/
theorem forall2_of_get? {α β : Type} {R : α → β → Prop} :
    ∀ {l₁ : List α} {l₂ : List β}, List.Forall₂ R l₁ l₂ →
      ∀ (j : Nat) (a : α) (b : β),
        l₁.get? j = some a → l₂.get? j = some b → R a b := by
  intro l₁ l₂ hf
  induction hf with
  | nil => intro j a b ha _; simp at ha
  | cons hr _ ih =>
    intro j a b ha hb
    cases j with
    | zero =>
      simp at ha hb
      rw [← ha, ← hb]
      exact hr
    | succ j => exact ih j a b (by simpa using ha) (by simpa using hb)

/-- The length of the expanded table is the sum of the CSV row counts. -/
theorem expandAll_length :
    ∀ (rows : List Row) (csvs : List (List Row)) (k : Nat),
      rows.length = csvs.length →
      (expandAll k rows csvs).length = (csvs.map List.length).sum := by
  intro rows
  induction rows with
  | nil =>
    intro csvs k h
    cases csvs with
    | nil => rfl
    | cons c cs => simp at h
  | cons r rs ih =>
    intro csvs k h
    cases csvs with
    | nil => simp at h
    | cons c cs =>
      rw [expandAll]
      simp [expandRow, ih cs (k + 1) (by simpa using h)]

/-- Every row of the expanded table comes from one (main row, CSV row) pair,
carries the series id of its block, and is the concatenation main row ++
series id field ++ CSV row. -/
theorem mem_expandAll :
    ∀ (rows : List Row) (csvs : List (List Row)) (k : Nat) (o : Row),
      o ∈ expandAll k rows csvs →
      ∃ j r c v, rows.get? j = some r ∧ csvs.get? j = some c ∧ v ∈ c ∧
        o = r ++ [("series_id", Value.int (Int.ofNat (k + j)))] ++ v := by
  intro rows
  induction rows with
  | nil => intro csvs k o ho; simp [expandAll] at ho
  | cons r rs ih =>
    intro csvs k o ho
    cases csvs with
    | nil => simp [expandAll] at ho
    | cons c cs =>
      rw [expandAll] at ho
      rcases List.mem_append.mp ho with h1 | h2
      · rw [expandRow] at h1
        rcases List.mem_map.mp h1 with ⟨v, hv, hveq⟩
        exact ⟨0, r, c, v, rfl, rfl, hv, by rw [← hveq, Nat.add_zero]⟩
      · obtain ⟨j, r', c', v, hr, hc, hv, heq⟩ := ih cs (k + 1) o h2
        refine ⟨j + 1, r', c', v, by simpa using hr, by simpa using hc, hv, ?_⟩
        rw [heq]
        have harith : k + 1 + j = k + (j + 1) := by omega
        rw [harith]

/-- A failing referenced CSV anywhere in the main rows aborts the whole
loop with that (or an earlier) load error. -/
theorem buildRows_error_of_bad_row (fs : Fs) (base : String) (fi : Nat) :
    ∀ (rows : List Row) (i : Nat),
      (∃ r ∈ rows, ∃ e, referencedCsv fs base fi r = Except.error e) →
      ∃ e, buildRows fs base fi i rows = Except.error e := by
  intro rows
  induction rows with
  | nil =>
    intro i h
    rcases h with ⟨r, hr, _⟩
    simp at hr
  | cons r rs ih =>
    intro i h
    rcases hres : referencedCsv fs base fi r with e | csv
    · exact ⟨e, by rw [buildRows, hres]⟩
    · rcases h with ⟨r', hr', e', he'⟩
      rcases List.mem_cons.mp hr' with rfl | hmem
      · rw [hres] at he'
        exact Except.noConfusion he'
      · obtain ⟨e, hb⟩ := ih (i + 1) ⟨r', hmem, e', he'⟩
        exact ⟨e, by rw [buildRows, hres, hb]⟩

/-- A successful base-path resolution decomposed: the column descriptor, its
foreign key, the referenced column, and the head of that column's
base-location-URI list. -/
theorem get_base_path_ok_spec (md : DataMetadata) (res : String) (i : Nat)
    (u : String) (h : get_base_path md res i = Except.ok u) :
    ∃ c fk rc,
      md.query res i = some c ∧
      c.foreign_key = some fk ∧
      md.query fk.resource_id fk.column_index = some rc ∧
      rc.location_base_uris.get? 0 = some u := by
  rw [get_base_path] at h
  split at h
  · exact Except.noConfusion h
  · rename_i c hq
    split at h
    · exact Except.noConfusion h
    · rename_i fk hfk
      split at h
      · exact Except.noConfusion h
      · rename_i rc hrc
        split at h
        · exact Except.noConfusion h
        · rename_i u' rest huris
          injection h with h
          exact ⟨c, fk, rc, hq, hfk, hrc, by rw [huris, h]; rfl⟩

/-- A successful per-row load decomposed: the file-name field of the row and
the CSV read from the base path joined with it. -/
theorem referencedCsv_ok_spec (fs : Fs) (base : String) (fi : Nat) (r : Row)
    (csv : List Row) (h : referencedCsv fs base fi r = Except.ok csv) :
    ∃ fname, rowFileValue r fi = Except.ok fname ∧
      read_csv fs (pathJoin base fname) = Except.ok csv := by
  rw [referencedCsv] at h
  split at h
  · exact Except.noConfusion h
  · rename_i fname hval
    exact ⟨fname, hval, h⟩

/-! ### The claims -/

/-- C1: the spec says that with `file_col_index` unset, produce runs Column
Discovery on the main resource and uses the first qualifying column (here the
second of two candidates).  The discovery helper itself, embedded from source
lines 89–95, does return the second column on such a dataset — but produce
(line 144) calls it without the required `res_id` argument, so the unset-index
path raises TypeError instead of using discovery at all. -/
theorem C1_discovery_typeerror :
    list_columns_with_semantic_types exMeta semantic_types_const "1" = [0, 1] ∧
    is_csv_file_column exMeta "1" 0 = false ∧
    find_csv_file_column exMeta "1" = some 1 ∧
    produce exHpNone exFs exDataset =
      Except.error (PyError.typeError
        "find_csv_file_column missing 1 required positional argument: res_id") :=
  ⟨rfl, rfl, rfl, rfl⟩

/-- C2: row-count law — on every successful run the output table has exactly
Σ over main-resource rows of (row count of that row's referenced CSV) rows. -/
theorem C2_row_count (hp : Hyperparams) (fs : Fs) (inputs : Dataset)
    (out : OutDataset) (h : produce hp fs inputs = Except.ok out) :
    ∃ main fi base rows csvs table,
      hp.main_resource_index = some main ∧
      resolveFileIndex hp.file_col_index inputs.metadata main = Except.ok fi ∧
      get_base_path inputs.metadata main fi = Except.ok base ∧
      lookupStr main inputs.resources = some rows ∧
      List.Forall₂ (fun r c => referencedCsv fs base fi r = Except.ok c) rows csvs ∧
      out.resources = [("0", table)] ∧
      table.length = (csvs.map List.length).sum := by
  obtain ⟨main, fi, base, rows, csvs, hmain, hfi, hbase, hrows, hf, hout⟩ :=
    produce_ok_spec hp fs inputs out h
  exact ⟨main, fi, base, rows, csvs, expandAll 0 rows csvs, hmain, hfi, hbase,
    hrows, hf, by rw [hout], expandAll_length rows csvs 0 hf.length_eq⟩

/-- C2 witness: the law instantiated on the concrete example run (two main
rows, CSVs of 2 and 1 rows, output of 3 rows). -/
theorem C2_row_count_witness :
    ∃ main fi base rows csvs table,
      exHp.main_resource_index = some main ∧
      resolveFileIndex exHp.file_col_index exDataset.metadata main = Except.ok fi ∧
      get_base_path exDataset.metadata main fi = Except.ok base ∧
      lookupStr main exDataset.resources = some rows ∧
      List.Forall₂ (fun r c => referencedCsv exFs base fi r = Except.ok c) rows csvs ∧
      exOut.resources = [("0", table)] ∧
      table.length = (csvs.map List.length).sum :=
  C2_row_count exHp exFs exDataset exOut rfl

/-- C3: grouping/order law — the output table is exactly the concatenation,
in main-resource row order, of per-row blocks, each block listing its source
CSV rows in their original order (`expandAll`): rows sharing a `series_id`
are contiguous and blocks follow main-resource order. -/
theorem C3_grouping_order (hp : Hyperparams) (fs : Fs) (inputs : Dataset)
    (out : OutDataset) (h : produce hp fs inputs = Except.ok out) :
    ∃ main fi base rows csvs,
      hp.main_resource_index = some main ∧
      resolveFileIndex hp.file_col_index inputs.metadata main = Except.ok fi ∧
      get_base_path inputs.metadata main fi = Except.ok base ∧
      lookupStr main inputs.resources = some rows ∧
      List.Forall₂ (fun r c => referencedCsv fs base fi r = Except.ok c) rows csvs ∧
      out.resources = [("0", expandAll 0 rows csvs)] := by
  obtain ⟨main, fi, base, rows, csvs, hmain, hfi, hbase, hrows, hf, hout⟩ :=
    produce_ok_spec hp fs inputs out h
  exact ⟨main, fi, base, rows, csvs, hmain, hfi, hbase, hrows, hf, by rw [hout]⟩

/-- C3 witness: the grouping/order law on the concrete example run. -/
theorem C3_grouping_order_witness :
    ∃ main fi base rows csvs,
      exHp.main_resource_index = some main ∧
      resolveFileIndex exHp.file_col_index exDataset.metadata main = Except.ok fi ∧
      get_base_path exDataset.metadata main fi = Except.ok base ∧
      lookupStr main exDataset.resources = some rows ∧
      List.Forall₂ (fun r c => referencedCsv exFs base fi r = Except.ok c) rows csvs ∧
      exOut.resources = [("0", expandAll 0 rows csvs)] :=
  C3_grouping_order exHp exFs exDataset exOut rfl

/-- C4: provenance law — every output row is the expansion of the main row at
some zero-based position `i` by one row of its referenced CSV, and carries
`series_id = i`. -/
theorem C4_provenance (hp : Hyperparams) (fs : Fs) (inputs : Dataset)
    (out : OutDataset) (h : produce hp fs inputs = Except.ok out) :
    ∃ main fi base rows table,
      hp.main_resource_index = some main ∧
      resolveFileIndex hp.file_col_index inputs.metadata main = Except.ok fi ∧
      get_base_path inputs.metadata main fi = Except.ok base ∧
      lookupStr main inputs.resources = some rows ∧
      out.resources = [("0", table)] ∧
      ∀ o ∈ table, ∃ i r csv v,
        rows.get? i = some r ∧
        referencedCsv fs base fi r = Except.ok csv ∧ v ∈ csv ∧
        o = r ++ [("series_id", Value.int (Int.ofNat i))] ++ v := by
  obtain ⟨main, fi, base, rows, csvs, hmain, hfi, hbase, hrows, hf, hout⟩ :=
    produce_ok_spec hp fs inputs out h
  refine ⟨main, fi, base, rows, expandAll 0 rows csvs, hmain, hfi, hbase, hrows,
    by rw [hout], ?_⟩
  intro o ho
  obtain ⟨j, r, c, v, hr, hc, hv, heq⟩ := mem_expandAll rows csvs 0 o ho
  exact ⟨j, r, c, v, hr, forall2_of_get? hf j r c hr hc, hv,
    by rw [heq, Nat.zero_add]⟩

/-- C4 witness: the provenance law on the concrete example run. -/
theorem C4_provenance_witness :
    ∃ main fi base rows table,
      exHp.main_resource_index = some main ∧
      resolveFileIndex exHp.file_col_index exDataset.metadata main = Except.ok fi ∧
      get_base_path exDataset.metadata main fi = Except.ok base ∧
      lookupStr main exDataset.resources = some rows ∧
      exOut.resources = [("0", table)] ∧
      ∀ o ∈ table, ∃ i r csv v,
        rows.get? i = some r ∧
        referencedCsv exFs base fi r = Except.ok csv ∧ v ∈ csv ∧
        o = r ++ [("series_id", Value.int (Int.ofNat i))] ++ v :=
  C4_provenance exHp exFs exDataset exOut rfl

/-- C5: the Column Classifier accepts a column iff it is textual, carries a
foreign key, and the key's target column is textual, has a semantic tag in
the required set and carries the csv media tag; in particular a column with
no foreign key, or whose target lacks the csv tag, is never accepted. -/
theorem C5_classifier_iff (md : DataMetadata) (res : String) (i : Nat) :
    is_csv_file_column md res i = true ↔
    ∃ c fk rc,
      md.query res i = some c ∧
      c.structural_type = StructType.str ∧
      c.foreign_key = some fk ∧
      md.query fk.resource_id fk.column_index = some rc ∧
      rc.structural_type = StructType.str ∧
      (∃ t ∈ rc.semantic_types, t ∈ semantic_types_const) ∧
      "text/csv" ∈ rc.media_types := by
  constructor
  · intro h
    rw [is_csv_file_column] at h
    split at h
    · exact absurd h (by simp)
    · rename_i c hq
      split at h
      · exact absurd h (by simp)
      · rename_i hst
        split at h
        · exact absurd h (by simp)
        · rename_i fk hfk
          rw [is_csv_file_reference] at h
          split at h
          · exact absurd h (by simp)
          · rename_i rc hrc
            split at h
            · exact absurd h (by simp)
            · rename_i hst2
              rw [Bool.and_eq_true, List.any_eq_true] at h
              obtain ⟨⟨t, ht, ht2⟩, h2⟩ := h
              refine ⟨c, fk, rc, hq, by simpa using hst, hfk, hrc,
                by simpa using hst2, ⟨t, ht, by simpa using ht2⟩, ?_⟩
              have := List.all_eq_true.mp h2 "text/csv" (by simp [media_types_const])
              simpa using this
  · rintro ⟨c, fk, rc, hq, hst, hfk, hrc, hst2, ⟨t, ht, ht2⟩, hmedia⟩
    rw [is_csv_file_column]
    simp only [hq, hfk]
    rw [if_neg (by simp [hst])]
    rw [is_csv_file_reference]
    simp only [hrc]
    rw [if_neg (by simp [hst2])]
    rw [Bool.and_eq_true, List.any_eq_true, List.all_eq_true]
    constructor
    · exact ⟨t, ht, by simpa using ht2⟩
    · intro x hx
      have : x = "text/csv" := by simpa [media_types_const] using hx
      rw [this]
      simpa using hmedia

/-- C6: base-path law — on every successful run the base path is the first
entry of the base-location-URI list of the column the file-reference
column's foreign key points at, and every row's CSV is read from that base
path joined with the row's file-reference field value. -/
theorem C6_base_path (hp : Hyperparams) (fs : Fs) (inputs : Dataset)
    (out : OutDataset) (h : produce hp fs inputs = Except.ok out) :
    ∃ main fi c fk rc u rows csvs,
      hp.main_resource_index = some main ∧
      resolveFileIndex hp.file_col_index inputs.metadata main = Except.ok fi ∧
      inputs.metadata.query main fi = some c ∧
      c.foreign_key = some fk ∧
      inputs.metadata.query fk.resource_id fk.column_index = some rc ∧
      rc.location_base_uris.get? 0 = some u ∧
      get_base_path inputs.metadata main fi = Except.ok u ∧
      lookupStr main inputs.resources = some rows ∧
      List.Forall₂ (fun r cv => ∃ fname, rowFileValue r fi = Except.ok fname ∧
        read_csv fs (pathJoin u fname) = Except.ok cv) rows csvs := by
  obtain ⟨main, fi, base, rows, csvs, hmain, hfi, hbase, hrows, hf, _⟩ :=
    produce_ok_spec hp fs inputs out h
  obtain ⟨c, fk, rc, hq, hfk, hrc, hu⟩ :=
    get_base_path_ok_spec inputs.metadata main fi base hbase
  refine ⟨main, fi, c, fk, rc, base, rows, csvs, hmain, hfi, hq, hfk, hrc, hu,
    hbase, hrows, ?_⟩
  exact hf.imp fun r cv hrel => referencedCsv_ok_spec _ _ _ _ _ hrel

/-- C6 witness: the base-path law on the concrete example run (base path
"/data/series/", files a.csv and b.csv). -/
theorem C6_base_path_witness :
    ∃ main fi c fk rc u rows csvs,
      exHp.main_resource_index = some main ∧
      resolveFileIndex exHp.file_col_index exDataset.metadata main = Except.ok fi ∧
      exDataset.metadata.query main fi = some c ∧
      c.foreign_key = some fk ∧
      exDataset.metadata.query fk.resource_id fk.column_index = some rc ∧
      rc.location_base_uris.get? 0 = some u ∧
      get_base_path exDataset.metadata main fi = Except.ok u ∧
      lookupStr main exDataset.resources = some rows ∧
      List.Forall₂ (fun r cv => ∃ fname, rowFileValue r fi = Except.ok fname ∧
        read_csv exFs (pathJoin u fname) = Except.ok cv) rows csvs :=
  C6_base_path exHp exFs exDataset exOut rfl

/-- C7: the spec lists three configuration errors.  The first two hold: a
missing main resource and an explicitly configured column failing the
classifier both raise InvalidArgumentValueError.  The third does not: with
`file_col_index` unset and no qualifying column (discovery, embedded from the
source helper, returns none), produce raises TypeError from the mis-called
discovery helper instead of the typed configuration error. -/
theorem C7_config_errors :
    produce ⟨some 1, none⟩ exFs exDataset =
      Except.error (PyError.invalidArgumentValue "no main resource specified") ∧
    produce ⟨some 0, some "1"⟩ exFs exDataset =
      Except.error (PyError.invalidArgumentValue
        "column idx=0 from does not contain csv file names") ∧
    find_csv_file_column exMetaNoQual "1" = none ∧
    produce ⟨none, some "1"⟩ exFs exDatasetNoQual =
      Except.error (PyError.typeError
        "find_csv_file_column missing 1 required positional argument: res_id") :=
  ⟨rfl, rfl, rfl, rfl⟩

/-- C8: if, after a valid configuration, any main-resource row's referenced
CSV fails to load, produce propagates an error: the whole run aborts and no
output dataset is returned. -/
theorem C8_load_error_aborts (hp : Hyperparams) (fs : Fs) (inputs : Dataset)
    (main : String) (fi : Nat) (base : String) (rows : List Row)
    (hmain : hp.main_resource_index = some main)
    (hfi : resolveFileIndex hp.file_col_index inputs.metadata main = Except.ok fi)
    (hbase : get_base_path inputs.metadata main fi = Except.ok base)
    (hrows : lookupStr main inputs.resources = some rows)
    (hbad : ∃ r ∈ rows, ∃ e, referencedCsv fs base fi r = Except.error e) :
    ∃ e, produce hp fs inputs = Except.error e := by
  obtain ⟨e, hb⟩ := buildRows_error_of_bad_row fs base fi rows 0 hbad
  exact ⟨e, by simp only [produce, hmain, hfi, hbase, hrows, hb]⟩

/-- C8 witness: with b.csv absent from the file system, the example run
aborts with a load error. -/
theorem C8_load_error_aborts_witness :
    ∃ e, produce exHp exFsPartial exDataset = Except.error e :=
  C8_load_error_aborts exHp exFsPartial exDataset "1" 1 "/data/series/"
    exMainRows rfl rfl rfl rfl
    ⟨[("alpha", Value.str "b"), ("file", Value.str "b.csv")], by decide,
      PyError.ioError "/data/series/b.csv", rfl⟩

/-- C9: on every successful run the output dataset holds exactly one
resource, keyed "0", and each of its rows lists the main-resource fields
first, then `series_id`, then the time-series file's fields, in
concatenation order. -/
theorem C9_output_shape (hp : Hyperparams) (fs : Fs) (inputs : Dataset)
    (out : OutDataset) (h : produce hp fs inputs = Except.ok out) :
    ∃ main fi base rows table,
      hp.main_resource_index = some main ∧
      resolveFileIndex hp.file_col_index inputs.metadata main = Except.ok fi ∧
      get_base_path inputs.metadata main fi = Except.ok base ∧
      lookupStr main inputs.resources = some rows ∧
      out = OutDataset.mk [("0", table)] ∧
      ∀ o ∈ table, ∃ r mid v i csv,
        o = r ++ mid ++ v ∧
        mid = [("series_id", Value.int (Int.ofNat i))] ∧
        rows.get? i = some r ∧
        referencedCsv fs base fi r = Except.ok csv ∧ v ∈ csv := by
  obtain ⟨main, fi, base, rows, csvs, hmain, hfi, hbase, hrows, hf, hout⟩ :=
    produce_ok_spec hp fs inputs out h
  refine ⟨main, fi, base, rows, expandAll 0 rows csvs, hmain, hfi, hbase, hrows,
    hout, ?_⟩
  intro o ho
  obtain ⟨j, r, c, v, hr, hc, hv, heq⟩ := mem_expandAll rows csvs 0 o ho
  exact ⟨r, [("series_id", Value.int (Int.ofNat j))], v, j, c,
    by rw [heq, Nat.zero_add], rfl, hr, forall2_of_get? hf j r c hr hc, hv⟩

/-- C9 witness: the output-shape law on the concrete example run. -/
theorem C9_output_shape_witness :
    ∃ main fi base rows table,
      exHp.main_resource_index = some main ∧
      resolveFileIndex exHp.file_col_index exDataset.metadata main = Except.ok fi ∧
      get_base_path exDataset.metadata main fi = Except.ok base ∧
      lookupStr main exDataset.resources = some rows ∧
      exOut = OutDataset.mk [("0", table)] ∧
      ∀ o ∈ table, ∃ r mid v i csv,
        o = r ++ mid ++ v ∧
        mid = [("series_id", Value.int (Int.ofNat i))] ∧
        rows.get? i = some r ∧
        referencedCsv exFs base fi r = Except.ok csv ∧ v ∈ csv :=
  C9_output_shape exHp exFs exDataset exOut rfl

/-- C10 counterexample: a dataset whose main resource has zero rows and whose
configuration is valid in the claim's sense — a qualifying file-reference
column exists (the classifier accepts column 1) and its base path resolves —
yet with `file_col_index` unset produce raises instead of returning the empty
single-resource dataset. -/
theorem C10_counterexample :
    is_csv_file_column exMeta "1" 1 = true ∧
    get_base_path exMeta "1" 1 = Except.ok "/data/series/" ∧
    lookupStr "1" exDatasetEmpty.resources = some [] ∧
    produce exHpNone exFs exDatasetEmpty =
      Except.error (PyError.typeError
        "find_csv_file_column missing 1 required positional argument: res_id") :=
  ⟨rfl, rfl, rfl, rfl⟩

/-- C10 (amended): if the main resource has zero rows and the configuration
is valid with the file-reference column explicitly configured —
`file_col_index` set to a column the classifier accepts, base path
resolvable — produce does not raise: it returns a dataset with the single
resource "0" holding an empty table, for every file system (no file is
loaded). -/
theorem C10_empty_main (hp : Hyperparams) (fs : Fs) (inputs : Dataset)
    (main : String) (fi : Nat) (base : String)
    (hmain : hp.main_resource_index = some main)
    (hfci : hp.file_col_index = some fi)
    (hqual : is_csv_file_column inputs.metadata main fi = true)
    (hbase : get_base_path inputs.metadata main fi = Except.ok base)
    (hrows : lookupStr main inputs.resources = some []) :
    produce hp fs inputs = Except.ok ⟨[("0", [])]⟩ := by
  simp only [produce, hmain, resolveFileIndex, hfci, hqual, if_true, hbase,
    hrows, buildRows]

/-- C10 witness: the amended claim on the zero-row example dataset with an
empty file system. -/
theorem C10_empty_main_witness :
    produce exHp [] exDatasetEmpty = Except.ok ⟨[("0", [])]⟩ :=
  C10_empty_main exHp [] exDatasetEmpty "1" 1 "/data/series/" rfl rfl rfl rfl rfl

end TSF
